import Mathlib

/-
Verification of the HyGCS concentration-discharge classification library.

This file shallowly embeds the core numeric routines of the repository
(modules hygcs/gcs_classification.py, hygcs/gcs_core.py, hygcs/harp.py,
hygcs/zuecco.py, hygcs/lloyd.py) as executable Lean definitions over the
rational numbers, and proves properties of them.

Conventions used throughout:
- Python floats are modelled as rationals.  A value that can be NaN in the
  source (for example a missing hysteresis index) is modelled as Option
  of a rational, with none standing for NaN.
- A guard of the form (not isnan x) and (x < t) from the source is encoded
  as (x.getD t < t): when x is none (NaN) the comparison is false, exactly
  as the guarded Python conjunction evaluates to False.
- Dictionaries keyed by strings are modelled as association lists.
-/

namespace HyGCS

/-! ## Simple C-Q behavior classifier (gcs_classification.py, classify_cq_behavior_simple) -/

/-- Significance test for the flow change, lines 659-663 of
gcs_classification.py: the change is significant when the range span
exceeds 1e-10 and the absolute change exceeds threshold_factor times the
span; a degenerate span makes the test False. -/
def flow_significant (flow_diff : ℚ) (flow_range : ℚ × ℚ) (threshold_factor : ℚ) : Bool :=
  let flow_delta := flow_range.2 - flow_range.1
  if flow_delta > 1 / 10 ^ 10 then decide (|flow_diff| > threshold_factor * flow_delta) else false

/-- Significance test for the concentration change, lines 660-664 of
gcs_classification.py, same structure as the flow test. -/
def conc_significant (conc_diff : ℚ) (conc_range : ℚ × ℚ) (threshold_factor : ℚ) : Bool :=
  let conc_delta := conc_range.2 - conc_range.1
  if conc_delta > 1 / 10 ^ 10 then decide (|conc_diff| > threshold_factor * conc_delta) else false

/-- Embedding of classify_cq_behavior_simple (gcs_classification.py lines
620-681): the 8-way Williams/Evans-Davies behavior tag for one two-point
segment. -/
def classify_cq_behavior_simple (flow_diff conc_diff : ℚ)
    (flow_range conc_range : ℚ × ℚ) (threshold_factor : ℚ) : String :=
  let is_flow_changing := flow_significant flow_diff flow_range threshold_factor
  let is_conc_changing := conc_significant conc_diff conc_range threshold_factor
  if is_flow_changing = false ∧ is_conc_changing = false then "static"
  else if is_flow_changing = true ∧ is_conc_changing = false then "quasi-chemostatic"
  else if is_flow_changing = false ∧ is_conc_changing = true then "source variation"
  else if flow_diff > 0 ∧ conc_diff > 0 then "connectivity"
  else if flow_diff < 0 ∧ conc_diff < 0 then "recovery"
  else if flow_diff > 0 ∧ conc_diff < 0 then "dispersion"
  else "accumulation"

/-- Significance exactly as claim C6 words it: the absolute change exceeds
threshold_factor times the range span, with no degenerate-span guard.
Written from the claim text, to be compared against the code. -/
def cq_claim_significant (d : ℚ) (rng : ℚ × ℚ) (threshold_factor : ℚ) : Bool :=
  decide (|d| > threshold_factor * (rng.2 - rng.1))

/-- The 8-way table as claim C6 states it, built on the unguarded
significance test.  Written from the claim text, to be compared against
the code. -/
def cq_claim_table (flow_diff conc_diff : ℚ)
    (flow_range conc_range : ℚ × ℚ) (threshold_factor : ℚ) : String :=
  let sQ := cq_claim_significant flow_diff flow_range threshold_factor
  let sC := cq_claim_significant conc_diff conc_range threshold_factor
  if sQ = false ∧ sC = false then "static"
  else if sQ = true ∧ sC = false then "quasi-chemostatic"
  else if sQ = false ∧ sC = true then "source variation"
  else if flow_diff > 0 ∧ conc_diff > 0 then "connectivity"
  else if flow_diff < 0 ∧ conc_diff < 0 then "recovery"
  else if flow_diff > 0 ∧ conc_diff < 0 then "dispersion"
  else "accumulation"

/-- The 8-way table with the significance test as the code actually guards
it (span must exceed 1e-10).  Written from the amended claim text, to be
compared against the code. -/
def cq_guarded_table (flow_diff conc_diff : ℚ)
    (flow_range conc_range : ℚ × ℚ) (threshold_factor : ℚ) : String :=
  let sQ := decide (flow_range.2 - flow_range.1 > 1 / 10 ^ 10) &&
    decide (|flow_diff| > threshold_factor * (flow_range.2 - flow_range.1))
  let sC := decide (conc_range.2 - conc_range.1 > 1 / 10 ^ 10) &&
    decide (|conc_diff| > threshold_factor * (conc_range.2 - conc_range.1))
  if sQ = false ∧ sC = false then "static"
  else if sQ = true ∧ sC = false then "quasi-chemostatic"
  else if sQ = false ∧ sC = true then "source variation"
  else if flow_diff > 0 ∧ conc_diff > 0 then "connectivity"
  else if flow_diff < 0 ∧ conc_diff < 0 then "recovery"
  else if flow_diff > 0 ∧ conc_diff < 0 then "dispersion"
  else "accumulation"

/-! ## Lawler and Lloyd indices (lloyd.py, calculate_lawlerlloyd_metrics) -/

/-- The Lawler ratio index at one percentile sample, lines 132-142 of
lloyd.py.  none models NaN (the undefined cases).  In the anticlockwise
branch the source computes (-1 / (C_rise / C_fall)) + 1. -/
def lawler_HIL (C_rise C_fall : ℚ) : Option ℚ :=
  if C_rise > C_fall then
    if C_fall = 0 then none else some (C_rise / C_fall - 1)
  else
    if C_rise = 0 then none else some (-1 / (C_rise / C_fall) + 1)

/-- The Lloyd difference index at one percentile sample, lines 144-149 of
lloyd.py. -/
def lloyd_HInew (C_rise C_fall : ℚ) : ℚ :=
  let C_mid := max C_rise C_fall
  if C_mid = 0 then 0 else (C_rise - C_fall) / C_mid

/-! ## HARP area stage (harp.py, calculate_harp_metrics and _find_intersection)

The limbs table produced at line 104 of harp.py is modelled as a list of
rows (x, rising, falling), sorted by the shared normalized-discharge
domain x, with interpolation already applied (no missing values). -/

/-- np.sign as used at line 132 of harp.py. -/
def qsign (q : ℚ) : ℤ :=
  if q < 0 then -1 else if q = 0 then 0 else 1

/-- The pointwise difference rising minus falling over the limbs table,
keeping the domain coordinate (the series limbs[0] - limbs[1]). -/
def harpLimbDiffs (limbs : List (ℚ × ℚ × ℚ)) : List (ℚ × ℚ) :=
  limbs.map fun t => (t.1, t.2.1 - t.2.2)

/-- The scan for the first sign change in the difference series, lines
213-220 of harp.py: np.where(np.diff(np.sign(diff))) followed by taking
the first index; the returned value is the domain coordinate of the left
point of the first adjacent pair whose signs differ. -/
def harpFirstSignChange : List (ℚ × ℚ) → Option ℚ
  | p :: t@(q :: _) =>
      if qsign p.2 ≠ qsign q.2 then some p.1 else harpFirstSignChange t
  | _ => none

/-- _find_intersection with the simple method (harp.py lines 178-220):
fewer than 2 rows means no intersection, otherwise the first sign change
of rising minus falling, and absence of any sign change means no
intersection. -/
def find_intersection_simple (limbs : List (ℚ × ℚ × ℚ)) : Option ℚ :=
  if limbs.length < 2 then none
  else harpFirstSignChange (harpLimbDiffs limbs)

/-- The sum ((limbs[0] - limbs[1]) * limbs.index.diff()).sum() of lines
127-128 and 136 of harp.py: each row contributes its difference value
times the index step to its predecessor; the first row (whose index
difference is NaN) is skipped by the pandas sum. -/
def harpRectSum : List (ℚ × ℚ) → ℚ
  | p :: t@(q :: _) => q.2 * (q.1 - p.1) + harpRectSum t
  | _ => 0

/-- The lower sub-area of lines 117-121 and 127 of harp.py: the limbs
rows with domain coordinate at most the intersection point, integrated by
harpRectSum. -/
def harpSubAreaLower (limbs : List (ℚ × ℚ × ℚ)) (xQS : ℚ) : ℚ :=
  harpRectSum (harpLimbDiffs (limbs.filter fun t => decide (t.1 ≤ xQS)))

/-- The upper sub-area of lines 122-126 and 128 of harp.py: the limbs
rows with domain coordinate strictly above the intersection point. -/
def harpSubAreaUpper (limbs : List (ℚ × ℚ × ℚ)) (xQS : ℚ) : ℚ :=
  harpRectSum (harpLimbDiffs (limbs.filter fun t => decide (xQS < t.1)))

/-- The area stage of calculate_harp_metrics, harp.py lines 108-138,
returning (area, area_lower, area_upper) with none modelling NaN.  With
an intersection the total area is the magnitude sum with the sign of the
larger portion; without one the area is the raw signed sum over the full
domain and the sub-areas are NaN. -/
def harpAreaStage (limbs : List (ℚ × ℚ × ℚ)) : ℚ × Option ℚ × Option ℚ :=
  match find_intersection_simple limbs with
  | some xQS =>
      let area1 := harpSubAreaLower limbs xQS
      let area2 := harpSubAreaUpper limbs xQS
      let total_area := |area1| + |area2|
      let area := (if |area1| > |area2| then (qsign area1 : ℚ) else (qsign area2 : ℚ)) * total_area
      (area, some area1, some area2)
  | none => (harpRectSum (harpLimbDiffs limbs), none, none)

/-- The trapezoidal-rule integral of a sampled function given as (x, value)
pairs.  Written from the spec text (trapezoidal rule over the shared
domain), to be compared against the code. -/
def trapezoidIntegralSpec (diffs : List (ℚ × ℚ)) : ℚ :=
  ((diffs.zip diffs.tail).map fun p => (p.1.2 + p.2.2) / 2 * (p.2.1 - p.1.1)).sum

/-! ## Zuecco differential areas (zuecco.py, calculate_zuecco_metrics) -/

/-- The fixed sampling grid np.linspace(0.15, 1.0, 18) of zuecco.py line
106: 18 evenly spaced points with exact step 0.05. -/
def zuecco_x_fixed (j : ℕ) : ℚ :=
  15 / 100 + j * (1 / 20)

/-- One differential area of the loop at zuecco.py lines 124-129: the
trapezoid under the rising limb minus the trapezoid under the falling
limb over the sub-interval from grid point j to grid point j+1, where
yR and yF are the limb values sampled at the fixed grid. -/
def zuecco_diff_area (yR yF : ℕ → ℚ) (j : ℕ) : ℚ :=
  let dx := zuecco_x_fixed (j + 1) - zuecco_x_fixed j
  (yR (j + 1) + yR j) * dx / 2 - (yF (j + 1) + yF j) * dx / 2

/-- The hysteresis index of zuecco.py lines 131-133: the sum of the 17
differential areas.  Over the rationals every value is finite, so the
guard replacing a non-finite sum by 0 at line 133 is the identity and is
not represented. -/
def zuecco_h_index (yR yF : ℕ → ℚ) : ℚ :=
  ((List.range 17).map (zuecco_diff_area yR yF)).sum

/-! ## Hierarchical phase classifier (gcs_classification.py, classify_segment_phase)

A segment row is modelled with one field per key the function reads via
row.get.  Numeric fields that can hold NaN are Option of a rational
(none = NaN); when the key is absent the Python default is a concrete
number or string, which is covered by the corresponding concrete field
value.  The guard (not isnan x) and (x < t) is encoded as
x.getD t < t, and likewise for the other guarded comparisons, which
agrees with the Python conjunction in both the NaN and the number case. -/

structure SegmentRow where
  window_HI_zuecco : Option ℚ
  window_HI_lloyd : Option ℚ
  window_HI_harp : Option ℚ
  Q_position : String
  C_position : String
  flow_diff : ℚ
  conc_diff : ℚ
  CVc_CVq : Option ℚ
  cq_slope_loglog : Option ℚ
  highres_flow_phase : String
  highres_days_since_peak : Option ℚ
  highres_q_level : String
  HI_transition : String
  prev_C_position : String
  prev_conc_diff : ℚ
  prev2_conc_diff : ℚ
  C_trajectory : String
  WAI : Option ℚ

/-- The percentile-threshold mapping produced by compute_change_percentiles
(gcs_core.py lines 493-518). -/
structure ChangePercentiles where
  dC_p01 : ℚ
  dC_p05 : ℚ
  dC_p08 : ℚ
  dC_p10 : ℚ
  dC_p25 : ℚ
  dC_p50 : ℚ
  dC_p75 : ℚ
  dC_p90 : ℚ
  dC_p95 : ℚ
  dQ_p05 : ℚ
  dQ_p10 : ℚ
  dQ_p25 : ℚ
  dQ_p50 : ℚ
  dQ_p75 : ℚ
  dQ_p90 : ℚ
  abs_dC_p50 : ℚ
  abs_dC_p75 : ℚ
  abs_dQ_p50 : ℚ
  abs_dQ_p75 : ℚ

/-- The primary hysteresis index with fallback, gcs_classification.py
lines 67-79: Zuecco first, then Lloyd, then HARP, else 0. -/
def csp_hi (row : SegmentRow) : ℚ :=
  match row.window_HI_zuecco with
  | some v => v
  | none =>
    match row.window_HI_lloyd with
    | some v => v
    | none =>
      match row.window_HI_harp with
      | some v => v
      | none => 0

/-! Named predicates for the threshold conditions of
classify_segment_phase, each with the source line it embeds.  They are
Prop-valued with Decidable instances so the rule tree below can branch on
them. -/

/-- Line 110: the current concentration change is a steep decline. -/
def csp_current_steep (row : SegmentRow) (p : ChangePercentiles) : Prop :=
  row.conc_diff < p.dC_p08

instance (row : SegmentRow) (p : ChangePercentiles) : Decidable (csp_current_steep row p) :=
  inferInstanceAs (Decidable (row.conc_diff < p.dC_p08))

/-- Line 111: the previous change was a steep decline. -/
def csp_prev_steep (row : SegmentRow) (p : ChangePercentiles) : Prop :=
  row.prev_conc_diff < p.dC_p08

instance (row : SegmentRow) (p : ChangePercentiles) : Decidable (csp_prev_steep row p) :=
  inferInstanceAs (Decidable (row.prev_conc_diff < p.dC_p08))

/-- Line 112: the change two segments back was a steep decline; also the
prev2_c_declining condition of line 257. -/
def csp_prev2_steep (row : SegmentRow) (p : ChangePercentiles) : Prop :=
  row.prev2_conc_diff < p.dC_p08

instance (row : SegmentRow) (p : ChangePercentiles) : Decidable (csp_prev2_steep row p) :=
  inferInstanceAs (Decidable (row.prev2_conc_diff < p.dC_p08))

/-- Line 114: the high-resolution flow phase is at or just past the peak. -/
def csp_q_at_peak (row : SegmentRow) : Prop :=
  row.highres_flow_phase ∈ ["at_peak", "rising", "early_decline"]

instance (row : SegmentRow) : Decidable (csp_q_at_peak row) :=
  inferInstanceAs (Decidable (_ ∈ _))

/-- Line 115: the flow level is elevated. -/
def csp_q_high (row : SegmentRow) : Prop :=
  row.highres_q_level ∈ ["high", "medium"] ∨ row.Q_position = "high"

instance (row : SegmentRow) : Decidable (csp_q_high row) :=
  inferInstanceAs (Decidable (_ ∨ _))

/-- Line 117: the concentration was recently high. -/
def csp_c_was_high (row : SegmentRow) : Prop :=
  row.prev_C_position = "high" ∨ row.C_position = "high" ∨
    row.C_trajectory ∈ ["steep_decline_from_high", "steep_decline"]

instance (row : SegmentRow) : Decidable (csp_c_was_high row) :=
  inferInstanceAs (Decidable (_ ∨ _))

/-- Line 120: the log-log C-Q slope is defined and above 0.15; the getD
encoding makes a NaN slope fail the comparison. -/
def csp_slope_positive (row : SegmentRow) : Prop :=
  (15 : ℚ) / 100 < row.cq_slope_loglog.getD (15 / 100)

instance (row : SegmentRow) : Decidable (csp_slope_positive row) :=
  inferInstanceAs (Decidable (_ < _))

/-- Line 181: the log-log C-Q slope is defined and below -0.15. -/
def csp_slope_negative (row : SegmentRow) : Prop :=
  row.cq_slope_loglog.getD (-(15 / 100)) < -(15 / 100)

instance (row : SegmentRow) : Decidable (csp_slope_negative row) :=
  inferInstanceAs (Decidable (_ < _))

/-- Line 230: the slope is NaN or has magnitude below 0.1 (for a NaN
slope the getD yields 0, whose magnitude is below 0.1, as in the source
where isnan alone satisfies the disjunction). -/
def csp_slope_flat (row : SegmentRow) : Prop :=
  |row.cq_slope_loglog.getD 0| < 1 / 10

instance (row : SegmentRow) : Decidable (csp_slope_flat row) :=
  inferInstanceAs (Decidable (_ < _))

/-- Line 137: the water availability index is defined and above 1. -/
def csp_wai_wet (row : SegmentRow) : Prop :=
  (1 : ℚ) < row.WAI.getD 1

instance (row : SegmentRow) : Decidable (csp_wai_wet row) :=
  inferInstanceAs (Decidable (_ < _))

/-- Line 203: the water availability index is defined and below -1. -/
def csp_wai_dry (row : SegmentRow) : Prop :=
  row.WAI.getD (-1) < -1

instance (row : SegmentRow) : Decidable (csp_wai_dry row) :=
  inferInstanceAs (Decidable (_ < _))

/-- Line 144: the high-resolution peak is defined and under 15 days old. -/
def csp_recent_peak (row : SegmentRow) : Prop :=
  row.highres_days_since_peak.getD 15 < 15

instance (row : SegmentRow) : Decidable (csp_recent_peak row) :=
  inferInstanceAs (Decidable (_ < _))

/-- Line 162: the concentration change is an extreme decline. -/
def csp_extreme (row : SegmentRow) (p : ChangePercentiles) : Prop :=
  row.conc_diff < p.dC_p01

instance (row : SegmentRow) (p : ChangePercentiles) : Decidable (csp_extreme row p) :=
  inferInstanceAs (Decidable (_ < _))

/-- Line 177: the concentration is at a high position and still rising. -/
def csp_c_high_rising (row : SegmentRow) : Prop :=
  row.C_position = "high" ∧ row.conc_diff > 0

instance (row : SegmentRow) : Decidable (csp_c_high_rising row) :=
  inferInstanceAs (Decidable (_ ∧ _))

/-- Line 178: the flow has not peaked yet. -/
def csp_q_not_peaked (row : SegmentRow) : Prop :=
  row.highres_flow_phase ∉ ["at_peak", "early_decline"]

instance (row : SegmentRow) : Decidable (csp_q_not_peaked row) :=
  inferInstanceAs (Decidable (¬_))

/-- Line 210: the concentration change is a large increase. -/
def csp_large_increase (row : SegmentRow) (p : ChangePercentiles) : Prop :=
  row.conc_diff > p.dC_p90

instance (row : SegmentRow) (p : ChangePercentiles) : Decidable (csp_large_increase row p) :=
  inferInstanceAs (Decidable (_ < _))

/-- Lines 224-225: a flush happened one or two segments back. -/
def csp_in_post_flush (row : SegmentRow) (p : ChangePercentiles) : Prop :=
  row.prev_conc_diff < p.dC_p25 ∨ row.prev2_conc_diff < p.dC_p08

instance (row : SegmentRow) (p : ChangePercentiles) : Decidable (csp_in_post_flush row p) :=
  inferInstanceAs (Decidable (_ ∨ _))

/-- Lines 226-227: the flow is past its peak (5 to 30 days). -/
def csp_post_peak (row : SegmentRow) : Prop :=
  row.highres_flow_phase ∈ ["post_peak", "late_decline"] ∨
    ((5 : ℚ) < row.highres_days_since_peak.getD 5 ∧ row.highres_days_since_peak.getD 30 < 30)

instance (row : SegmentRow) : Decidable (csp_post_peak row) :=
  inferInstanceAs (Decidable (_ ∨ _))

/-- Line 232: the hysteresis index is small and its transition stable. -/
def csp_low_stable_hi (row : SegmentRow) : Prop :=
  |csp_hi row| < 12 / 100 ∧ row.HI_transition = "stable"

instance (row : SegmentRow) : Decidable (csp_low_stable_hi row) :=
  inferInstanceAs (Decidable (_ ∧ _))

/-- Line 255: the concentration change magnitude is modest. -/
def csp_c_stable (row : SegmentRow) (p : ChangePercentiles) : Prop :=
  |row.conc_diff| < p.abs_dC_p75

instance (row : SegmentRow) (p : ChangePercentiles) : Decidable (csp_c_stable row p) :=
  inferInstanceAs (Decidable (_ < _))

/-- Line 256: the previous concentration change was a decline below the
25th percentile. -/
def csp_prev_c_declining (row : SegmentRow) (p : ChangePercentiles) : Prop :=
  row.prev_conc_diff < p.dC_p25

instance (row : SegmentRow) (p : ChangePercentiles) : Decidable (csp_prev_c_declining row p) :=
  inferInstanceAs (Decidable (_ < _))

/-- Lines 252-253: the flow phase is past peak, in late decline or
stable. -/
def csp_post_peak_phase (row : SegmentRow) : Prop :=
  row.highres_flow_phase ∈ ["post_peak", "late_decline", "stable"] ∨
    (5 : ℚ) < row.highres_days_since_peak.getD 5

instance (row : SegmentRow) : Decidable (csp_post_peak_phase row) :=
  inferInstanceAs (Decidable (_ ∨ _))

/-- Line 258: the concentration position is low or medium. -/
def csp_c_depleted (row : SegmentRow) : Prop :=
  row.C_position ∈ ["low", "medium"]

instance (row : SegmentRow) : Decidable (csp_c_depleted row) :=
  inferInstanceAs (Decidable (_ ∈ _))

/-- Line 281: the flow cycle is in its late phase. -/
def csp_late_cycle (row : SegmentRow) : Prop :=
  row.highres_flow_phase ∈ ["low", "late_decline"] ∨ row.highres_q_level = "low"

instance (row : SegmentRow) : Decidable (csp_late_cycle row) :=
  inferInstanceAs (Decidable (_ ∨ _))

/-- Line 284: the CVc/CVq ratio is defined and below 0.8. -/
def csp_low_cvc (row : SegmentRow) : Prop :=
  row.CVc_CVq.getD (8 / 10) < 8 / 10

instance (row : SegmentRow) : Decidable (csp_low_cvc row) :=
  inferInstanceAs (Decidable (_ < _))

/-- Rules accumulated by the flushing-aftermath block (lines 144-145):
they stay in the list when the inner stability check fails and control
falls through. -/
def csp_rules1 (row : SegmentRow) (p : ChangePercentiles) : List String :=
  if csp_prev_steep row p ∧ csp_q_high row ∧ csp_recent_peak row then
    ["prev_steep_decline", "q_high", "recent_peak"]
  else []

/-- Rules accumulated after the extreme-decline check (lines 162-163):
the rule stays when neither sub-branch returns. -/
def csp_rules2 (row : SegmentRow) (p : ChangePercentiles) : List String :=
  csp_rules1 row p ++ (if csp_extreme row p then ["extreme_decline"] else [])

/-- Rules accumulated after the large-concentration-increase check
(lines 210-211). -/
def csp_rules3 (row : SegmentRow) (p : ChangePercentiles) : List String :=
  csp_rules2 row p ++ (if csp_large_increase row p then ["large_c_increase"] else [])

/-- Rules accumulated by the chemostatic block (lines 232-237): the block
extends the list before its exclusion checks and falls through when they
fail. -/
def csp_rules4 (row : SegmentRow) (p : ChangePercentiles) : List String :=
  csp_rules3 row p ++
    (if csp_low_stable_hi row then
      ["low_hi", "stable_hi"] ++ (if csp_slope_flat row then ["flat_cq_slope_chemostatic"] else [])
    else [])

/-- Rules accumulated by the alternative dilution trigger (lines 270-271):
appended before the recent-flush check, kept on fall-through. -/
def csp_rules5 (row : SegmentRow) (p : ChangePercentiles) : List String :=
  csp_rules4 row p ++
    (if csp_post_peak_phase row ∧ row.flow_diff < p.dQ_p10 ∧ csp_c_stable row p then
      ["post_peak", "large_q_drop", "c_not_changing"]
    else [])

/-- Rules accumulated by the recession block (lines 284-285): the
low-CVc/CVq rule is appended before the flow check, kept on fall-through. -/
def csp_rules6 (row : SegmentRow) (p : ChangePercentiles) : List String :=
  csp_rules5 row p ++ (if csp_low_cvc row then ["low_cvc_cvq"] else [])

/-- Embedding of classify_segment_phase (gcs_classification.py lines
40-308).  The Python function mutates a rules list and returns early;
here each fall-through accumulation of rules is given by the csp_rules
definitions above, so that a rule block appended before a conditional
early return stays in the list when the inner condition fails and
control continues to the next priority. -/
def classify_segment_phase (row : SegmentRow) (p : ChangePercentiles) :
    String × ℚ × List String :=
  -- PRIORITY 1: FLUSHING, current steep decline during high flow
  if csp_current_steep row p ∧ (csp_q_at_peak row ∨ csp_q_high row) then
    ("F",
      (if csp_wai_wet row then
        min (98 / 100)
          ((if csp_slope_positive row then (if csp_c_was_high row then 95 / 100 else 90 / 100)
            else (if csp_c_was_high row then 92 / 100 else 85 / 100)) + 3 / 100)
      else
        (if csp_slope_positive row then (if csp_c_was_high row then 95 / 100 else 90 / 100)
         else (if csp_c_was_high row then 92 / 100 else 85 / 100))),
      ["current_steep_decline", "q_high_or_peak"]
        ++ (if csp_slope_positive row then ["positive_cq_slope_dilution"] else [])
        ++ (if csp_c_was_high row then ["c_was_high"] else [])
        ++ (if csp_wai_wet row then ["high_wai_wet"] else []))
  -- FLUSHING aftermath: previous steep decline with flow still elevated
  else if csp_prev_steep row p ∧ csp_q_high row ∧ csp_recent_peak row ∧
      csp_c_stable row p then
    ("F", (if csp_slope_positive row then 85 / 100 else 80 / 100),
      csp_rules1 row p ++ ["aftermath_stable"]
        ++ (if csp_slope_positive row then ["positive_cq_slope_confirms"] else []))
  -- FLUSHING extended aftermath: steep decline two segments ago
  else if csp_prev2_steep row p ∧ csp_q_at_peak row then
    ("F", (if csp_slope_positive row then 75 / 100 else 70 / 100),
      csp_rules1 row p ++ ["prev2_steep_decline", "q_at_peak"]
        ++ (if csp_slope_positive row then ["positive_cq_slope"] else []))
  -- FLUSHING extreme decline with slope or flow evidence
  else if csp_extreme row p ∧ csp_slope_positive row then
    ("F", 92 / 100, csp_rules2 row p ++ ["positive_cq_slope_strong"])
  else if csp_extreme row p ∧ ¬csp_slope_positive row ∧
      (row.flow_diff > 0 ∨ row.Q_position ∈ ["high", "medium"]) then
    ("F", 88 / 100, csp_rules2 row p ++ ["q_elevated"])
  -- PRIORITY 2: LOADING
  else if csp_c_high_rising row then
    ("L",
      (if csp_wai_dry row then
        min (98 / 100)
          ((if csp_slope_negative row then (if csp_q_not_peaked row then 95 / 100 else 92 / 100)
            else (if csp_q_not_peaked row then 90 / 100 else 80 / 100)) + 3 / 100)
      else
        (if csp_slope_negative row then (if csp_q_not_peaked row then 95 / 100 else 92 / 100)
         else (if csp_q_not_peaked row then 90 / 100 else 80 / 100))),
      csp_rules2 row p ++ ["c_high", "c_rising"]
        ++ (if csp_slope_negative row then ["negative_cq_slope_enrichment"] else [])
        ++ (if csp_q_not_peaked row then ["q_not_peaked"] else [])
        ++ (if csp_wai_dry row then ["low_wai_accumulation"] else []))
  else if csp_large_increase row p ∧ row.flow_diff ≤ p.dQ_p75 then
    ("L", (if csp_slope_negative row then 90 / 100 else 85 / 100),
      csp_rules3 row p ++ ["q_stable"]
        ++ (if csp_slope_negative row then ["negative_cq_slope_confirms"] else []))
  -- PRIORITY 3: CHEMOSTATIC
  else if csp_low_stable_hi row ∧
      ¬(csp_c_high_rising row ∨ (csp_q_high row ∧ |row.conc_diff| > p.abs_dC_p75)) ∧
      ¬(csp_in_post_flush row p ∧ csp_post_peak row) then
    ("C", (if csp_slope_flat row then 90 / 100 else 85 / 100),
      csp_rules4 row p ++ ["not_dynamic"])
  -- PRIORITY 4: DILUTION
  else if csp_post_peak_phase row ∧ row.flow_diff < 0 ∧ csp_c_stable row p ∧
      (csp_prev_c_declining row p ∨ csp_prev2_steep row p) then
    ("D", (if csp_c_depleted row then 85 / 100 else 75 / 100),
      csp_rules4 row p ++ ["post_peak", "q_declining", "c_stable", "recent_flush"]
        ++ (if csp_c_depleted row then ["c_depleted"] else []))
  else if csp_post_peak_phase row ∧ row.flow_diff < p.dQ_p10 ∧ csp_c_stable row p ∧
      (csp_prev_c_declining row p ∨ csp_prev2_steep row p) then
    ("D", 80 / 100, csp_rules5 row p ++ ["recent_flush"])
  -- PRIORITY 5: RECESSION
  else if csp_low_cvc row ∧ row.flow_diff < p.dQ_p25 then
    (if csp_late_cycle row then ("R", 85 / 100, csp_rules6 row p ++ ["q_declining", "late_cycle"])
     else ("R", 75 / 100, csp_rules6 row p ++ ["q_declining"]))
  else if (row.flow_diff < p.dQ_p25 ∧ row.conc_diff < p.dC_p25) ∧ csp_late_cycle row then
    ("R", 70 / 100, csp_rules6 row p ++ ["both_declining", "late_cycle"])
  -- FALLBACK: VARIABLE
  else
    ("V", (if |row.conc_diff| < 30 ∧ |row.flow_diff| < 30 then 60 / 100 else 40 / 100),
      csp_rules6 row p ++ ["fallback_variable"])
/-! ## Change percentiles (gcs_core.py, compute_change_percentiles)

The input table restricted to the selected sites is modelled as one list
per site of (concentration, flow) values in time order, with missing
values already dropped. -/

/-- Successive differences of one time-sorted series (pandas diff with
the leading NaN dropped). -/
def site_diffs (s : List ℚ) : List ℚ :=
  (s.zip s.tail).map fun t => t.2 - t.1

/-- The pooled concentration changes of gcs_core.py lines 480-489: per
site, successive differences when the site has more than one row, pooled
across sites. -/
def pooledConcDiffs (series : List (List (ℚ × ℚ))) : List ℚ :=
  (series.map fun s => if s.length > 1 then site_diffs (s.map Prod.fst) else []).flatten

/-- The pooled flow changes, same pooling with the flow column. -/
def pooledFlowDiffs (series : List (List (ℚ × ℚ))) : List ℚ :=
  (series.map fun s => if s.length > 1 then site_diffs (s.map Prod.snd) else []).flatten

/-- Linear interpolation into a sample list at fractional position h: the
value at index floor h plus the fractional part times the step to the
next entry (the next entry defaults to the current one past the end). -/
def interpAt (s : List ℚ) (h : ℚ) : ℚ :=
  let i : ℕ := ⌊h⌋₊
  let a := s.getD i 0
  let b := s.getD (i + 1) a
  a + (h - (i : ℚ)) * (b - a)

/-- pandas Series.quantile with the default linear interpolation: sort
the values and interpolate at position q times (length - 1). -/
def pandasQuantile (l : List ℚ) (q : ℚ) : ℚ :=
  interpAt (l.insertionSort (· ≤ ·)) (q * ((l.length : ℚ) - 1))

/-- The percentile-threshold mapping of gcs_core.py lines 493-518, built
from the pooled changes by pandas quantiles. -/
def compute_change_percentiles (series : List (List (ℚ × ℚ))) : ChangePercentiles :=
  let c := pooledConcDiffs series
  let q := pooledFlowDiffs series
  { dC_p01 := pandasQuantile c (1 / 100)
    dC_p05 := pandasQuantile c (5 / 100)
    dC_p08 := pandasQuantile c (8 / 100)
    dC_p10 := pandasQuantile c (10 / 100)
    dC_p25 := pandasQuantile c (25 / 100)
    dC_p50 := pandasQuantile c (50 / 100)
    dC_p75 := pandasQuantile c (75 / 100)
    dC_p90 := pandasQuantile c (90 / 100)
    dC_p95 := pandasQuantile c (95 / 100)
    dQ_p05 := pandasQuantile q (5 / 100)
    dQ_p10 := pandasQuantile q (10 / 100)
    dQ_p25 := pandasQuantile q (25 / 100)
    dQ_p50 := pandasQuantile q (50 / 100)
    dQ_p75 := pandasQuantile q (75 / 100)
    dQ_p90 := pandasQuantile q (90 / 100)
    abs_dC_p50 := pandasQuantile (c.map (|·|)) (50 / 100)
    abs_dC_p75 := pandasQuantile (c.map (|·|)) (75 / 100)
    abs_dQ_p50 := pandasQuantile (q.map (|·|)) (50 / 100)
    abs_dQ_p75 := pandasQuantile (q.map (|·|)) (75 / 100) }

/-- The textbook sample median: middle element of the sorted values for
odd length, mean of the two middle elements for even length.  Written
from the spec text, to be compared against the p50 quantile of the
code. -/
def medianSpec (l : List ℚ) : ℚ :=
  let s := l.insertionSort (· ≤ ·)
  if l.length % 2 = 1 then s.getD (l.length / 2) 0
  else (s.getD (l.length / 2 - 1) 0 + s.getD (l.length / 2) 0) / 2

/-! ## Hysteresis metrics wrapper (gcs_core.py, calculate_all_hysteresis_metrics)

The wrapper is generic in the row type of the input frame and in the
payload type of the processed data frames; each engine is a fallible
computation returning its metric record (an association list of named
values, Option for NaN) and its processed frame, so that a raised Python
exception is an Except.error value. -/

/-- A value in the classifications dictionary: a numeric class or a
direction tag (the source stores the zuecco class as an int; the numeric
payload keeps the rational value). -/
inductive ClassVal where
  | numeric : Option ℚ → ClassVal
  | direction : String → ClassVal

/-- The result record of calculate_all_hysteresis_metrics (gcs_core.py
lines 124-144), with none for the absent error key of a success. -/
structure HystOutcome (π : Type) where
  harp_metrics : List (String × Option ℚ)
  zuecco_metrics : List (String × Option ℚ)
  lloyd_metrics : List (String × Option ℚ)
  classifications : List (String × ClassVal)
  processed_data : List (String × π)
  error : Option String

/-- The insufficient-data marker of gcs_core.py lines 61-69: all metric
collections empty, explicit error message. -/
def insufficientOutcome {π : Type} : HystOutcome π :=
  { harp_metrics := []
    zuecco_metrics := []
    lloyd_metrics := []
    classifications := []
    processed_data := []
    error := some "Insufficient data points (need >= 3)" }

/-- The caught-exception marker of gcs_core.py lines 136-144. -/
def failureOutcome {π : Type} (e : String) : HystOutcome π :=
  { harp_metrics := []
    zuecco_metrics := []
    lloyd_metrics := []
    classifications := []
    processed_data := []
    error := some ("Calculation failed: " ++ e) }

/-- The direction classification from a mean index (gcs_core.py lines
99-122): clockwise above 0.1, counter-clockwise below -0.1, weak in
between, unknown for NaN. -/
def lloydDirection (m : Option ℚ) : String :=
  match m with
  | some v => if v > 1 / 10 then "clockwise"
    else if v < -(1 / 10) then "counter-clockwise" else "weak"
  | none => "unknown"

/-- The classifications dictionary of gcs_core.py lines 87-122, built
from whichever named metrics are present. -/
def buildClassifications (harp zuecco lloyd : List (String × Option ℚ)) :
    List (String × ClassVal) :=
  (match harp.lookup "hyst_class" with
    | some v => [("harp_class", ClassVal.numeric v)]
    | none => []) ++
  (match zuecco.lookup "hyst_class" with
    | some v => [("zuecco_class", ClassVal.numeric v)]
    | none => []) ++
  (match lloyd.lookup "mean_HInew" with
    | some m => [("lloyd_direction", ClassVal.direction (lloydDirection m))]
    | none => []) ++
  (match lloyd.lookup "mean_HIL" with
    | some m => [("lawler_direction", ClassVal.direction (lloydDirection m))]
    | none => [])

/-- The body of the try block: the three engines run in order and the
first failure aborts, as the first raised exception does in the source. -/
def runEngines {α π : Type}
    (harpCalc zueccoCalc lloydCalc : List α → Except String (List (String × Option ℚ) × π))
    (df : List α) :
    Except String ((List (String × Option ℚ) × π) × (List (String × Option ℚ) × π) ×
      (List (String × Option ℚ) × π)) := do
  let h ← harpCalc df
  let z ← zueccoCalc df
  let l ← lloydCalc df
  pure (h, z, l)

/-- Embedding of calculate_all_hysteresis_metrics (gcs_core.py lines
26-144): fewer than 3 rows yields the insufficient-data marker without
running any engine; otherwise the engines run inside the try block and
any failure is converted to the caught-exception marker, never
propagated. -/
def calculate_all_hysteresis_metrics {α π : Type}
    (harpCalc zueccoCalc lloydCalc : List α → Except String (List (String × Option ℚ) × π))
    (df : List α) : HystOutcome π :=
  if df.length < 3 then insufficientOutcome
  else
    match runEngines harpCalc zueccoCalc lloydCalc df with
    | Except.error e => failureOutcome e
    | Except.ok ((hm, hd), (zm, zd), (lm, ld)) =>
      { harp_metrics := hm
        zuecco_metrics := zm
        lloyd_metrics := lm
        classifications := buildClassifications hm zm lm
        processed_data := [("harp", hd), ("zuecco", zd), ("lloyd", ld)]
        error := none }

end HyGCS

namespace HyGCS

/-! ## Theorems -/

/-- Unfolding equation for harpRectSum on the empty list. -/
theorem harpRectSum_nil : harpRectSum [] = 0 := by
  simp [harpRectSum]

/-- Unfolding equation for harpRectSum on a one-row list. -/
theorem harpRectSum_single (p : ℚ × ℚ) : harpRectSum [p] = 0 := by
  simp [harpRectSum]

/-- Unfolding equation for harpRectSum on a list with at least two
entries. -/
theorem harpRectSum_cons (p q : ℚ × ℚ) (t : List (ℚ × ℚ)) :
    harpRectSum (p :: q :: t) = q.2 * (q.1 - p.1) + harpRectSum (q :: t) := by
  simp [harpRectSum]

/-- Unfolding equation for harpFirstSignChange on the empty list. -/
theorem harpFirstSignChange_nil : harpFirstSignChange [] = none := by
  simp [harpFirstSignChange]

/-- Unfolding equation for harpFirstSignChange on a one-row list. -/
theorem harpFirstSignChange_single (p : ℚ × ℚ) : harpFirstSignChange [p] = none := by
  simp [harpFirstSignChange]

/-- Unfolding equation for harpFirstSignChange on a list with at least two
entries. -/
theorem harpFirstSignChange_cons (p q : ℚ × ℚ) (t : List (ℚ × ℚ)) :
    harpFirstSignChange (p :: q :: t) =
      if qsign p.2 ≠ qsign q.2 then some p.1 else harpFirstSignChange (q :: t) := by
  simp [harpFirstSignChange]

/-- harpRectSum expressed over adjacent pairs: each adjacent pair of rows
contributes the right value times the domain step. -/
theorem harpRectSum_eq_zip (l : List (ℚ × ℚ)) :
    harpRectSum l = ((l.zip l.tail).map fun p => p.2.2 * (p.2.1 - p.1.1)).sum := by
  induction l with
  | nil => simp [harpRectSum]
  | cons a t ih =>
    cases t with
    | nil => simp [harpRectSum]
    | cons b r =>
      simp only [harpRectSum, List.tail_cons, List.zip_cons_cons, List.map_cons, List.sum_cons]
      rw [ih]
      simp

/-- C10: if the flow range span is at most 1e-10 the flow change is treated
as insignificant no matter how large it is, likewise for concentration,
and with both spans degenerate classify_cq_behavior_simple returns static
for arbitrary changes. -/
theorem cq_simple_degenerate_ranges (flow_diff conc_diff : ℚ)
    (flow_range conc_range : ℚ × ℚ) (threshold_factor : ℚ) :
    (flow_range.2 - flow_range.1 ≤ 1 / 10 ^ 10 →
      flow_significant flow_diff flow_range threshold_factor = false) ∧
    (conc_range.2 - conc_range.1 ≤ 1 / 10 ^ 10 →
      conc_significant conc_diff conc_range threshold_factor = false) ∧
    (flow_range.2 - flow_range.1 ≤ 1 / 10 ^ 10 →
      conc_range.2 - conc_range.1 ≤ 1 / 10 ^ 10 →
      classify_cq_behavior_simple flow_diff conc_diff flow_range conc_range threshold_factor
        = "static") := by
  have hf : flow_range.2 - flow_range.1 ≤ 1 / 10 ^ 10 →
      flow_significant flow_diff flow_range threshold_factor = false := by
    intro h
    unfold flow_significant
    rw [if_neg (by exact not_lt.mpr h)]
  have hc : conc_range.2 - conc_range.1 ≤ 1 / 10 ^ 10 →
      conc_significant conc_diff conc_range threshold_factor = false := by
    intro h
    unfold conc_significant
    rw [if_neg (by exact not_lt.mpr h)]
  refine ⟨hf, hc, fun h1 h2 => ?_⟩
  unfold classify_cq_behavior_simple
  rw [if_pos ⟨hf h1, hc h2⟩]

/-- C10 witness: with both spans zero, a flow change of 1000000 and a
concentration change of 1000000 are still classified as static. -/
theorem cq_simple_degenerate_ranges_witness :
    classify_cq_behavior_simple 1000000 1000000 (0, 0) (0, 0) (1 / 100) = "static" :=
  (cq_simple_degenerate_ranges 1000000 1000000 (0, 0) (0, 0) (1 / 100)).2.2
    (by norm_num) (by norm_num)

/-- C6 counterexample: at flow change +20 and concentration change +5 with
both ranges degenerate, the code returns static while the 8-way table as
the claim words it (significance without the span guard) returns
connectivity, so the claimed iff fails on the code. -/
theorem cq_simple_claim_counterexample :
    classify_cq_behavior_simple 20 5 (0, 0) (0, 0) (1 / 100) = "static" ∧
    cq_claim_table 20 5 (0, 0) (0, 0) (1 / 100) = "connectivity" ∧
    classify_cq_behavior_simple 20 5 (0, 0) (0, 0) (1 / 100) ≠
      cq_claim_table 20 5 (0, 0) (0, 0) (1 / 100) := by
  have h1 : classify_cq_behavior_simple 20 5 (0, 0) (0, 0) (1 / 100) = "static" := by
    norm_num [classify_cq_behavior_simple, flow_significant, conc_significant]
  have h2 : cq_claim_table 20 5 (0, 0) (0, 0) (1 / 100) = "connectivity" := by
    norm_num [cq_claim_table, cq_claim_significant, abs_of_pos]
  refine ⟨h1, h2, ?_⟩
  rw [h1, h2]
  decide

/-- C6 amended: classify_cq_behavior_simple realizes the significance-tested
8-way table where a change is significant iff the range span exceeds 1e-10
and the absolute change exceeds threshold_factor times the span; the two
concrete cases of the claim hold as stated. -/
theorem cq_simple_realizes_guarded_table (flow_diff conc_diff : ℚ)
    (flow_range conc_range : ℚ × ℚ) (threshold_factor : ℚ) :
    classify_cq_behavior_simple flow_diff conc_diff flow_range conc_range threshold_factor
      = cq_guarded_table flow_diff conc_diff flow_range conc_range threshold_factor ∧
    classify_cq_behavior_simple 20 5 (0, 100) (0, 10) (1 / 100) = "connectivity" ∧
    classify_cq_behavior_simple (1 / 1000) (1 / 1000) (0, 100) (0, 10) (1 / 100) = "static" := by
  refine ⟨?_,
    by norm_num [classify_cq_behavior_simple, flow_significant, conc_significant, abs_of_pos],
    by norm_num [classify_cq_behavior_simple, flow_significant, conc_significant, abs_of_pos]⟩
  unfold classify_cq_behavior_simple cq_guarded_table flow_significant conc_significant
  by_cases hf : flow_range.2 - flow_range.1 > 1 / 10 ^ 10 <;>
    by_cases hc : conc_range.2 - conc_range.1 > 1 / 10 ^ 10 <;>
      simp [hf, hc]

/-- C5 counterexample: at a percentile sample where both limbs equal 1/2,
the Lawler index is 0 (the anticlockwise branch evaluates to
1 - C_fall / C_rise = 0), not NaN as the claim states. -/
theorem lawler_HIL_equal_limbs_counterexample :
    lawler_HIL (1 / 2) (1 / 2) = some 0 ∧ lawler_HIL (1 / 2) (1 / 2) ≠ none := by
  have h : lawler_HIL (1 / 2) (1 / 2) = some 0 := by
    norm_num [lawler_HIL]
  exact ⟨h, by rw [h]; simp⟩

/-- C5 amended: at every percentile sample where the rising and falling
limb values coincide, the Lloyd difference index is 0, and the Lawler
ratio index is NaN exactly when the common value is 0 (division undefined)
and otherwise equals 0. -/
theorem lawler_lloyd_equal_limbs (c : ℚ) :
    lloyd_HInew c c = 0 ∧ lawler_HIL c c = (if c = 0 then none else some 0) := by
  constructor
  · unfold lloyd_HInew
    rcases eq_or_ne (max c c) 0 with h | h
    · rw [if_pos h]
    · rw [if_neg h]
      simp
  · unfold lawler_HIL
    rw [if_neg (lt_irrefl c)]
    rcases eq_or_ne c 0 with h | h
    · rw [if_pos h, if_pos h]
    · rw [if_neg h, if_neg h, div_self h]
      norm_num

/-- C2: when a limb intersection is found at domain point xQS, the
reported hysteresis area is the magnitude sum of the two sub-areas (the
integrals of rising minus falling over the rows up to xQS and strictly
after xQS) carrying the sign of whichever sub-area has the larger
magnitude, and the sub-areas are reported as area_lower and area_upper. -/
theorem harp_area_sign_of_dominant_subarea (limbs : List (ℚ × ℚ × ℚ)) (xQS : ℚ)
    (h : find_intersection_simple limbs = some xQS) :
    (|harpSubAreaLower limbs xQS| > |harpSubAreaUpper limbs xQS| →
      (harpAreaStage limbs).1 =
        (qsign (harpSubAreaLower limbs xQS) : ℚ) *
          (|harpSubAreaLower limbs xQS| + |harpSubAreaUpper limbs xQS|)) ∧
    (|harpSubAreaUpper limbs xQS| > |harpSubAreaLower limbs xQS| →
      (harpAreaStage limbs).1 =
        (qsign (harpSubAreaUpper limbs xQS) : ℚ) *
          (|harpSubAreaLower limbs xQS| + |harpSubAreaUpper limbs xQS|)) ∧
    (harpAreaStage limbs).2.1 = some (harpSubAreaLower limbs xQS) ∧
    (harpAreaStage limbs).2.2 = some (harpSubAreaUpper limbs xQS) := by
  unfold harpAreaStage
  rw [h]
  dsimp only
  refine ⟨fun hgt => ?_, fun hgt => ?_, rfl, rfl⟩
  · rw [if_pos hgt]
  · rw [if_neg (not_lt.mpr (le_of_lt hgt))]

/-- C2 witness: on the concrete limbs table
[(0, 1, 0), (1/2, 0, 1), (1, 1, 0)] the simple method finds the
intersection at 0, the sub-areas are 0 and 1/2, and the reported area is
the positively signed magnitude sum 1/2. -/
theorem harp_area_sign_of_dominant_subarea_witness :
    find_intersection_simple [((0 : ℚ), (1 : ℚ), (0 : ℚ)), (1 / 2, 0, 1), (1, 1, 0)] = some 0 ∧
    harpSubAreaLower [((0 : ℚ), (1 : ℚ), (0 : ℚ)), (1 / 2, 0, 1), (1, 1, 0)] 0 = 0 ∧
    harpSubAreaUpper [((0 : ℚ), (1 : ℚ), (0 : ℚ)), (1 / 2, 0, 1), (1, 1, 0)] 0 = 1 / 2 ∧
    (harpAreaStage [((0 : ℚ), (1 : ℚ), (0 : ℚ)), (1 / 2, 0, 1), (1, 1, 0)]).1 = 1 / 2 := by
  have hint : find_intersection_simple
      [((0 : ℚ), (1 : ℚ), (0 : ℚ)), (1 / 2, 0, 1), (1, 1, 0)] = some 0 := by
    norm_num [find_intersection_simple, harpLimbDiffs, harpFirstSignChange_cons,
      harpFirstSignChange_single, qsign]
  have hlow : harpSubAreaLower [((0 : ℚ), (1 : ℚ), (0 : ℚ)), (1 / 2, 0, 1), (1, 1, 0)] 0 = 0 := by
    norm_num [harpSubAreaLower, harpLimbDiffs, harpRectSum_nil, harpRectSum_single,
      harpRectSum_cons, List.filter_cons, List.filter_nil, decide_eq_true_eq]
  have hup : harpSubAreaUpper [((0 : ℚ), (1 : ℚ), (0 : ℚ)), (1 / 2, 0, 1), (1, 1, 0)] 0 = 1 / 2 := by
    norm_num [harpSubAreaUpper, harpLimbDiffs, harpRectSum_nil, harpRectSum_single,
      harpRectSum_cons, List.filter_cons, List.filter_nil, decide_eq_true_eq]
  refine ⟨hint, hlow, hup, ?_⟩
  have hmain := (harp_area_sign_of_dominant_subarea _ 0 hint).2.1
    (by rw [hlow, hup]; norm_num)
  rw [hmain, hlow, hup]
  norm_num [qsign]

/-- C3 counterexample: on the limbs table [(0, 1, 0), (1, 3, 0)] there is
no sign change, so no intersection, and the code reports area 3 (the
right-endpoint rectangle sum) while the trapezoidal-rule integral of
rising minus falling over the same domain is 2, so the claimed
trapezoidal value disagrees with the code. -/
theorem harp_no_intersection_trapezoid_counterexample :
    find_intersection_simple [((0 : ℚ), (1 : ℚ), (0 : ℚ)), (1, 3, 0)] = none ∧
    (harpAreaStage [((0 : ℚ), (1 : ℚ), (0 : ℚ)), (1, 3, 0)]).1 = 3 ∧
    trapezoidIntegralSpec (harpLimbDiffs [((0 : ℚ), (1 : ℚ), (0 : ℚ)), (1, 3, 0)]) = 2 ∧
    (harpAreaStage [((0 : ℚ), (1 : ℚ), (0 : ℚ)), (1, 3, 0)]).1 ≠
      trapezoidIntegralSpec (harpLimbDiffs [((0 : ℚ), (1 : ℚ), (0 : ℚ)), (1, 3, 0)]) := by
  have hint : find_intersection_simple [((0 : ℚ), (1 : ℚ), (0 : ℚ)), (1, 3, 0)] = none := by
    norm_num [find_intersection_simple, harpLimbDiffs, harpFirstSignChange_cons,
      harpFirstSignChange_single, qsign]
  have harea : (harpAreaStage [((0 : ℚ), (1 : ℚ), (0 : ℚ)), (1, 3, 0)]).1 = 3 := by
    unfold harpAreaStage
    rw [hint]
    norm_num [harpLimbDiffs, harpRectSum_single, harpRectSum_cons]
  have htrap : trapezoidIntegralSpec (harpLimbDiffs [((0 : ℚ), (1 : ℚ), (0 : ℚ)), (1, 3, 0)]) = 2 := by
    norm_num [trapezoidIntegralSpec, harpLimbDiffs]
  refine ⟨hint, harea, htrap, ?_⟩
  rw [harea, htrap]
  norm_num

/-- C3 amended: when the simple method finds no sign change (hence no
intersection), the reported area is the raw signed right-endpoint
rectangle sum of rising minus falling over the full shared domain (each
adjacent pair of rows contributes the difference at the right point times
the domain step), and area_lower and area_upper are NaN. -/
theorem harp_no_intersection_area (limbs : List (ℚ × ℚ × ℚ))
    (h : find_intersection_simple limbs = none) :
    (harpAreaStage limbs).1 =
      ((limbs.zip limbs.tail).map fun p => (p.2.2.1 - p.2.2.2) * (p.2.1 - p.1.1)).sum ∧
    (harpAreaStage limbs).2.1 = none ∧ (harpAreaStage limbs).2.2 = none := by
  unfold harpAreaStage
  rw [h]
  refine ⟨?_, rfl, rfl⟩
  rw [harpRectSum_eq_zip]
  unfold harpLimbDiffs
  rw [← List.map_tail, List.zip_map, List.map_map]
  rfl

/-- C3 witness: on the concrete limbs table [(0, 1, 0), (1, 3, 0)] with no
intersection, the theorem applies: the reported area equals the rectangle
sum over adjacent pairs and the sub-areas are NaN. -/
theorem harp_no_intersection_area_witness :
    (harpAreaStage [((0 : ℚ), (1 : ℚ), (0 : ℚ)), (1, 3, 0)]).2.1 = none ∧
    (harpAreaStage [((0 : ℚ), (1 : ℚ), (0 : ℚ)), (1, 3, 0)]).1 =
      (([((0 : ℚ), (1 : ℚ), (0 : ℚ)), (1, 3, 0)].zip
          [((0 : ℚ), (1 : ℚ), (0 : ℚ)), (1, 3, 0)].tail).map
        fun p => (p.2.2.1 - p.2.2.2) * (p.2.1 - p.1.1)).sum := by
  have hint : find_intersection_simple [((0 : ℚ), (1 : ℚ), (0 : ℚ)), (1, 3, 0)] = none := by
    norm_num [find_intersection_simple, harpLimbDiffs, harpFirstSignChange_cons,
      harpFirstSignChange_single, qsign]
  exact ⟨(harp_no_intersection_area _ hint).2.1, (harp_no_intersection_area _ hint).1⟩

/-- C4: the Zuecco hysteresis index is the sum over the 17 adjacent pairs
of the 18 evenly spaced sample points in [0.15, 1.0] of the trapezoidal
area under the rising limb minus the trapezoidal area under the falling
limb on that sub-interval; the grid starts at 0.15 and ends at 1. -/
theorem zuecco_h_index_eq_sum (yR yF : ℕ → ℚ) :
    zuecco_h_index yR yF =
      ∑ j ∈ Finset.range 17,
        ((yR (j + 1) + yR j) * (zuecco_x_fixed (j + 1) - zuecco_x_fixed j) / 2 -
          (yF (j + 1) + yF j) * (zuecco_x_fixed (j + 1) - zuecco_x_fixed j) / 2) ∧
    zuecco_x_fixed 0 = 15 / 100 ∧ zuecco_x_fixed 17 = 1 := by
  refine ⟨rfl, by norm_num [zuecco_x_fixed], by norm_num [zuecco_x_fixed]⟩

set_option maxHeartbeats 1000000 in
/-- C1: for every input row and percentile mapping,
classify_segment_phase returns a phase among F, L, C, D, R, V and a
confidence inside the closed interval from 0 to 1. -/
theorem classify_segment_phase_range (row : SegmentRow) (p : ChangePercentiles) :
    (classify_segment_phase row p).1 ∈ (["F", "L", "C", "D", "R", "V"] : List String) ∧
    0 ≤ (classify_segment_phase row p).2.1 ∧ (classify_segment_phase row p).2.1 ≤ 1 := by
  unfold classify_segment_phase
  by_cases h1 : csp_current_steep row p ∧ (csp_q_at_peak row ∨ csp_q_high row)
  · rw [if_pos h1]
    refine ⟨?_, ?_, ?_⟩
    all_goals first
      | (split_ifs <;> norm_num [min_def])
      | norm_num [min_def]
  rw [if_neg h1]
  by_cases h2 : csp_prev_steep row p ∧ csp_q_high row ∧ csp_recent_peak row ∧ csp_c_stable row p
  · rw [if_pos h2]
    refine ⟨?_, ?_, ?_⟩
    all_goals first
      | (split_ifs <;> norm_num [min_def])
      | norm_num [min_def]
  rw [if_neg h2]
  by_cases h3 : csp_prev2_steep row p ∧ csp_q_at_peak row
  · rw [if_pos h3]
    refine ⟨?_, ?_, ?_⟩
    all_goals first
      | (split_ifs <;> norm_num [min_def])
      | norm_num [min_def]
  rw [if_neg h3]
  by_cases h4 : csp_extreme row p ∧ csp_slope_positive row
  · rw [if_pos h4]
    refine ⟨?_, ?_, ?_⟩
    all_goals first
      | (split_ifs <;> norm_num [min_def])
      | norm_num [min_def]
  rw [if_neg h4]
  by_cases h5 : csp_extreme row p ∧ ¬csp_slope_positive row ∧ (row.flow_diff > 0 ∨ row.Q_position ∈ ["high", "medium"])
  · rw [if_pos h5]
    refine ⟨?_, ?_, ?_⟩
    all_goals first
      | (split_ifs <;> norm_num [min_def])
      | norm_num [min_def]
  rw [if_neg h5]
  by_cases h6 : csp_c_high_rising row
  · rw [if_pos h6]
    refine ⟨?_, ?_, ?_⟩
    all_goals first
      | (split_ifs <;> norm_num [min_def])
      | norm_num [min_def]
  rw [if_neg h6]
  by_cases h7 : csp_large_increase row p ∧ row.flow_diff ≤ p.dQ_p75
  · rw [if_pos h7]
    refine ⟨?_, ?_, ?_⟩
    all_goals first
      | (split_ifs <;> norm_num [min_def])
      | norm_num [min_def]
  rw [if_neg h7]
  by_cases h8 : csp_low_stable_hi row ∧ ¬(csp_c_high_rising row ∨ (csp_q_high row ∧ |row.conc_diff| > p.abs_dC_p75)) ∧ ¬(csp_in_post_flush row p ∧ csp_post_peak row)
  · rw [if_pos h8]
    refine ⟨?_, ?_, ?_⟩
    all_goals first
      | (split_ifs <;> norm_num [min_def])
      | norm_num [min_def]
  rw [if_neg h8]
  by_cases h9 : csp_post_peak_phase row ∧ row.flow_diff < 0 ∧ csp_c_stable row p ∧ (csp_prev_c_declining row p ∨ csp_prev2_steep row p)
  · rw [if_pos h9]
    refine ⟨?_, ?_, ?_⟩
    all_goals first
      | (split_ifs <;> norm_num [min_def])
      | norm_num [min_def]
  rw [if_neg h9]
  by_cases h10 : csp_post_peak_phase row ∧ row.flow_diff < p.dQ_p10 ∧ csp_c_stable row p ∧ (csp_prev_c_declining row p ∨ csp_prev2_steep row p)
  · rw [if_pos h10]
    refine ⟨?_, ?_, ?_⟩
    all_goals first
      | (split_ifs <;> norm_num [min_def])
      | norm_num [min_def]
  rw [if_neg h10]
  by_cases h11 : csp_low_cvc row ∧ row.flow_diff < p.dQ_p25
  · rw [if_pos h11]
    refine ⟨?_, ?_, ?_⟩
    all_goals first
      | (split_ifs <;> norm_num [min_def])
      | norm_num [min_def]
  rw [if_neg h11]
  by_cases h12 : (row.flow_diff < p.dQ_p25 ∧ row.conc_diff < p.dC_p25) ∧ csp_late_cycle row
  · rw [if_pos h12]
    refine ⟨?_, ?_, ?_⟩
    all_goals first
      | (split_ifs <;> norm_num [min_def])
      | norm_num [min_def]
  rw [if_neg h12]
  refine ⟨?_, ?_, ?_⟩
  all_goals first
    | (split_ifs <;> norm_num [min_def])
    | norm_num [min_def]

set_option maxHeartbeats 1000000 in
/-- C9: every call to classify_segment_phase returns a non-empty
rules_triggered list: each return branch, including the final V fallback,
appends at least one rule name. -/
theorem classify_segment_phase_rules_nonempty (row : SegmentRow) (p : ChangePercentiles) :
    (classify_segment_phase row p).2.2 ≠ [] := by
  unfold classify_segment_phase
  by_cases h1 : csp_current_steep row p ∧ (csp_q_at_peak row ∨ csp_q_high row)
  · rw [if_pos h1]
    first
      | (split_ifs <;> simp)
      | simp
  rw [if_neg h1]
  by_cases h2 : csp_prev_steep row p ∧ csp_q_high row ∧ csp_recent_peak row ∧ csp_c_stable row p
  · rw [if_pos h2]
    first
      | (split_ifs <;> simp)
      | simp
  rw [if_neg h2]
  by_cases h3 : csp_prev2_steep row p ∧ csp_q_at_peak row
  · rw [if_pos h3]
    first
      | (split_ifs <;> simp)
      | simp
  rw [if_neg h3]
  by_cases h4 : csp_extreme row p ∧ csp_slope_positive row
  · rw [if_pos h4]
    first
      | (split_ifs <;> simp)
      | simp
  rw [if_neg h4]
  by_cases h5 : csp_extreme row p ∧ ¬csp_slope_positive row ∧ (row.flow_diff > 0 ∨ row.Q_position ∈ ["high", "medium"])
  · rw [if_pos h5]
    first
      | (split_ifs <;> simp)
      | simp
  rw [if_neg h5]
  by_cases h6 : csp_c_high_rising row
  · rw [if_pos h6]
    first
      | (split_ifs <;> simp)
      | simp
  rw [if_neg h6]
  by_cases h7 : csp_large_increase row p ∧ row.flow_diff ≤ p.dQ_p75
  · rw [if_pos h7]
    first
      | (split_ifs <;> simp)
      | simp
  rw [if_neg h7]
  by_cases h8 : csp_low_stable_hi row ∧ ¬(csp_c_high_rising row ∨ (csp_q_high row ∧ |row.conc_diff| > p.abs_dC_p75)) ∧ ¬(csp_in_post_flush row p ∧ csp_post_peak row)
  · rw [if_pos h8]
    first
      | (split_ifs <;> simp)
      | simp
  rw [if_neg h8]
  by_cases h9 : csp_post_peak_phase row ∧ row.flow_diff < 0 ∧ csp_c_stable row p ∧ (csp_prev_c_declining row p ∨ csp_prev2_steep row p)
  · rw [if_pos h9]
    first
      | (split_ifs <;> simp)
      | simp
  rw [if_neg h9]
  by_cases h10 : csp_post_peak_phase row ∧ row.flow_diff < p.dQ_p10 ∧ csp_c_stable row p ∧ (csp_prev_c_declining row p ∨ csp_prev2_steep row p)
  · rw [if_pos h10]
    first
      | (split_ifs <;> simp)
      | simp
  rw [if_neg h10]
  by_cases h11 : csp_low_cvc row ∧ row.flow_diff < p.dQ_p25
  · rw [if_pos h11]
    first
      | (split_ifs <;> simp)
      | simp
  rw [if_neg h11]
  by_cases h12 : (row.flow_diff < p.dQ_p25 ∧ row.conc_diff < p.dC_p25) ∧ csp_late_cycle row
  · rw [if_pos h12]
    first
      | (split_ifs <;> simp)
      | simp
  rw [if_neg h12]
  first
    | (split_ifs <;> simp)
    | simp

end HyGCS

namespace HyGCS

/-- In a sorted sample list, the value at a smaller in-bounds index is at
most the value at a larger in-bounds index. -/
theorem sorted_getD_mono {s : List ℚ} (hs : s.Sorted (· ≤ ·)) {i j : ℕ}
    (hij : i ≤ j) (hj : j < s.length) : s.getD i 0 ≤ s.getD j 0 := by
  have hi : i < s.length := lt_of_le_of_lt hij hj
  rw [List.getD_eq_getElem s 0 hi, List.getD_eq_getElem s 0 hj]
  have h := hs.rel_get_of_le (Fin.mk_le_mk.mpr hij : (⟨i, hi⟩ : Fin s.length) ≤ ⟨j, hj⟩)
  simpa using h

/-- The second sample read by interpAt is at least the first. -/
theorem interp_step_nonneg {s : List ℚ} (hs : s.Sorted (· ≤ ·)) {i : ℕ}
    (hi : i < s.length) : s.getD i 0 ≤ s.getD (i + 1) (s.getD i 0) := by
  by_cases hb : i + 1 < s.length
  · rw [List.getD_eq_getElem s _ hb, List.getD_eq_getElem s 0 hi]
    have h := hs.rel_get_of_le
      (Fin.mk_le_mk.mpr (Nat.le_succ i) : (⟨i, hi⟩ : Fin s.length) ≤ ⟨i + 1, hb⟩)
    simpa using h
  · rw [List.getD_eq_default s _ (le_of_not_lt hb)]

/-- Linear interpolation into a sorted sample list is monotone in the
position. -/
theorem interpAt_mono {s : List ℚ} (hs : s.Sorted (· ≤ ·)) (hne : s ≠ [])
    {h1 h2 : ℚ} (h0 : 0 ≤ h1) (h12 : h1 ≤ h2) (hub : h2 ≤ (s.length : ℚ) - 1) :
    interpAt s h1 ≤ interpAt s h2 := by
  have hlen : 0 < s.length := List.length_pos.mpr hne
  have h02 : (0 : ℚ) ≤ h2 := le_trans h0 h12
  have hfl1 : (⌊h1⌋₊ : ℚ) ≤ h1 := Nat.floor_le h0
  have hfl2 : (⌊h2⌋₊ : ℚ) ≤ h2 := Nat.floor_le h02
  have hlt1 : h1 < ⌊h1⌋₊ + 1 := Nat.lt_floor_add_one h1
  have hi12 : ⌊h1⌋₊ ≤ ⌊h2⌋₊ := Nat.floor_le_floor h12
  have hcast : ((s.length - 1 : ℕ) : ℚ) = (s.length : ℚ) - 1 := by
    push_cast [Nat.cast_sub hlen]
    ring
  have hi2len : ⌊h2⌋₊ ≤ s.length - 1 := by
    have hq : (⌊h2⌋₊ : ℚ) ≤ ((s.length - 1 : ℕ) : ℚ) := by
      rw [hcast]; exact le_trans hfl2 hub
    exact_mod_cast hq
  have hi2lt : ⌊h2⌋₊ < s.length := by omega
  have hi1lt : ⌊h1⌋₊ < s.length := by omega
  rcases eq_or_lt_of_le hi12 with heq | hlt
  · -- both positions fall in the same interpolation cell
    unfold interpAt
    rw [← heq]
    have hab := interp_step_nonneg hs hi1lt
    have hmul := mul_le_mul_of_nonneg_right (sub_le_sub_right h12 (⌊h1⌋₊ : ℚ))
      (sub_nonneg.mpr hab)
    dsimp only
    linarith
  · -- the positions fall in different cells
    have hi1b : ⌊h1⌋₊ + 1 < s.length := by omega
    have hup : interpAt s h1 ≤ s.getD (⌊h1⌋₊ + 1) 0 := by
      unfold interpAt
      dsimp only
      rw [List.getD_eq_getElem s _ hi1b, List.getD_eq_getElem s 0 hi1b]
      have hab : s.getD ⌊h1⌋₊ 0 ≤ s[⌊h1⌋₊ + 1] := by
        rw [← List.getD_eq_getElem s 0 hi1b]
        have h := interp_step_nonneg hs hi1lt
        rwa [List.getD_eq_getElem s _ hi1b, ← List.getD_eq_getElem s 0 hi1b] at h
      have ht1 : h1 - (⌊h1⌋₊ : ℚ) ≤ 1 := by linarith
      nlinarith [sub_nonneg.mpr hab]
    have hmid : s.getD (⌊h1⌋₊ + 1) 0 ≤ s.getD ⌊h2⌋₊ 0 :=
      sorted_getD_mono hs (by omega) hi2lt
    have hlow : s.getD ⌊h2⌋₊ 0 ≤ interpAt s h2 := by
      unfold interpAt
      dsimp only
      have hab := interp_step_nonneg hs hi2lt
      nlinarith [sub_nonneg.mpr hab, sub_nonneg.mpr hfl2]
    exact le_trans hup (le_trans hmid hlow)

/-- pandas quantiles of one sample are monotone in the quantile level. -/
theorem pandasQuantile_mono (l : List ℚ) (hne : l ≠ []) {q1 q2 : ℚ}
    (h0 : 0 ≤ q1) (h12 : q1 ≤ q2) (h1 : q2 ≤ 1) :
    pandasQuantile l q1 ≤ pandasQuantile l q2 := by
  unfold pandasQuantile
  have hs : (l.insertionSort (· ≤ ·)).Sorted (· ≤ ·) := List.sorted_insertionSort _ l
  have hlen : (l.insertionSort (· ≤ ·)).length = l.length := List.length_insertionSort _ l
  have hlp : 0 < l.length := List.length_pos.mpr hne
  have hne2 : l.insertionSort (· ≤ ·) ≠ [] := by
    intro h
    rw [h] at hlen
    simp at hlen
    omega
  have hnn : (0 : ℚ) ≤ (l.length : ℚ) - 1 := by
    have : (1 : ℚ) ≤ (l.length : ℚ) := by exact_mod_cast hlp
    linarith
  apply interpAt_mono hs hne2
  · exact mul_nonneg h0 hnn
  · exact mul_le_mul_of_nonneg_right h12 hnn
  · rw [hlen]
    nlinarith

/-- The pandas p50 quantile of a non-empty sample is its median: the
middle of the sorted values for odd length, the mean of the two middle
values for even length. -/
theorem pandasQuantile_half_eq_median (l : List ℚ) (hne : l ≠ []) :
    pandasQuantile l (1 / 2) = medianSpec l := by
  have hlen : (l.insertionSort (· ≤ ·)).length = l.length := List.length_insertionSort _ l
  have hlp : 0 < l.length := List.length_pos.mpr hne
  unfold pandasQuantile medianSpec interpAt
  dsimp only
  rcases Nat.even_or_odd l.length with ⟨k, hk⟩ | ⟨k, hk⟩
  · -- even length: l.length = k + k with k at least 1
    have hk1 : 1 ≤ k := by omega
    have hval : (1 / 2 : ℚ) * ((l.length : ℚ) - 1) = ((k - 1 : ℕ) : ℚ) + 1 / 2 := by
      rw [hk]
      push_cast [Nat.cast_sub hk1]
      ring
    rw [hval]
    have hfl : ⌊((k - 1 : ℕ) : ℚ) + 1 / 2⌋₊ = k - 1 := by
      rw [Nat.floor_eq_iff (by positivity)]
      constructor
      · linarith
      · push_cast
        linarith
    rw [hfl]
    have hmod : ¬l.length % 2 = 1 := by omega
    rw [if_neg hmod]
    have hdiv : l.length / 2 = k := by omega
    have hsub : k - 1 + 1 = k := by omega
    have hkb : k < (l.insertionSort (· ≤ ·)).length := by omega
    rw [hdiv, hsub, List.getD_eq_getElem _ _ hkb, List.getD_eq_getElem _ 0 hkb]
    push_cast [Nat.cast_sub hk1]
    ring
  · -- odd length: l.length = 2 * k + 1
    have hval : (1 / 2 : ℚ) * ((l.length : ℚ) - 1) = ((k : ℕ) : ℚ) := by
      rw [hk]
      push_cast
      ring
    rw [hval, Nat.floor_natCast]
    have hmod : l.length % 2 = 1 := by omega
    rw [if_pos hmod]
    have hdiv : l.length / 2 = k := by omega
    rw [hdiv]
    ring

/-- C7: for every input whose pooled concentration-change distribution is
non-empty, the mapping returned by compute_change_percentiles has dC_p50
equal to the median of the pooled changes and satisfies the monotone
chain dC_p08 at most dC_p25 at most dC_p50 at most dC_p75 at most
dC_p90. -/
theorem compute_change_percentiles_median_mono (series : List (List (ℚ × ℚ)))
    (hne : pooledConcDiffs series ≠ []) :
    (compute_change_percentiles series).dC_p50 = medianSpec (pooledConcDiffs series) ∧
    (compute_change_percentiles series).dC_p08 ≤ (compute_change_percentiles series).dC_p25 ∧
    (compute_change_percentiles series).dC_p25 ≤ (compute_change_percentiles series).dC_p50 ∧
    (compute_change_percentiles series).dC_p50 ≤ (compute_change_percentiles series).dC_p75 ∧
    (compute_change_percentiles series).dC_p75 ≤ (compute_change_percentiles series).dC_p90 := by
  unfold compute_change_percentiles
  dsimp only
  refine ⟨?_, ?_, ?_, ?_, ?_⟩
  · rw [show (50 : ℚ) / 100 = 1 / 2 by norm_num]
    exact pandasQuantile_half_eq_median _ hne
  · exact pandasQuantile_mono _ hne (by norm_num) (by norm_num) (by norm_num)
  · exact pandasQuantile_mono _ hne (by norm_num) (by norm_num) (by norm_num)
  · exact pandasQuantile_mono _ hne (by norm_num) (by norm_num) (by norm_num)
  · exact pandasQuantile_mono _ hne (by norm_num) (by norm_num) (by norm_num)

/-- C7 witness: for the one-site series with concentrations 1, 3, 2 the
pooled changes are [2, -1], which are non-empty, so the median equality
and the percentile chain hold there. -/
theorem compute_change_percentiles_median_mono_witness :
    pooledConcDiffs [[((1 : ℚ), (0 : ℚ)), (3, 0), (2, 0)]] ≠ [] ∧
    ((compute_change_percentiles [[((1 : ℚ), (0 : ℚ)), (3, 0), (2, 0)]]).dC_p50 =
      medianSpec (pooledConcDiffs [[((1 : ℚ), (0 : ℚ)), (3, 0), (2, 0)]]) ∧
    (compute_change_percentiles [[((1 : ℚ), (0 : ℚ)), (3, 0), (2, 0)]]).dC_p08 ≤
      (compute_change_percentiles [[((1 : ℚ), (0 : ℚ)), (3, 0), (2, 0)]]).dC_p25 ∧
    (compute_change_percentiles [[((1 : ℚ), (0 : ℚ)), (3, 0), (2, 0)]]).dC_p25 ≤
      (compute_change_percentiles [[((1 : ℚ), (0 : ℚ)), (3, 0), (2, 0)]]).dC_p50 ∧
    (compute_change_percentiles [[((1 : ℚ), (0 : ℚ)), (3, 0), (2, 0)]]).dC_p50 ≤
      (compute_change_percentiles [[((1 : ℚ), (0 : ℚ)), (3, 0), (2, 0)]]).dC_p75 ∧
    (compute_change_percentiles [[((1 : ℚ), (0 : ℚ)), (3, 0), (2, 0)]]).dC_p75 ≤
      (compute_change_percentiles [[((1 : ℚ), (0 : ℚ)), (3, 0), (2, 0)]]).dC_p90) := by
  have hne : pooledConcDiffs [[((1 : ℚ), (0 : ℚ)), (3, 0), (2, 0)]] ≠ [] := by
    simp [pooledConcDiffs, site_diffs]
  exact ⟨hne, compute_change_percentiles_median_mono _ hne⟩


/-- C8: with fewer than 3 input rows calculate_all_hysteresis_metrics
returns the insufficient-data marker (all metric collections empty, with
an explicit error message); with enough rows, a failure of any engine in
the try block yields the caught-failure marker instead of propagating;
and every possible result either carries no error or is a fully empty
error-marker record. -/
theorem calculate_all_hysteresis_metrics_error_handling {α π : Type}
    (harpCalc zueccoCalc lloydCalc : List α → Except String (List (String × Option ℚ) × π))
    (df : List α) :
    (df.length < 3 →
      calculate_all_hysteresis_metrics harpCalc zueccoCalc lloydCalc df =
        insufficientOutcome) ∧
    (∀ e, 3 ≤ df.length →
      runEngines harpCalc zueccoCalc lloydCalc df = Except.error e →
      calculate_all_hysteresis_metrics harpCalc zueccoCalc lloydCalc df = failureOutcome e) ∧
    ((calculate_all_hysteresis_metrics harpCalc zueccoCalc lloydCalc df).error = none ∨
      ((calculate_all_hysteresis_metrics harpCalc zueccoCalc lloydCalc df).harp_metrics = [] ∧
        (calculate_all_hysteresis_metrics harpCalc zueccoCalc lloydCalc df).zuecco_metrics = [] ∧
        (calculate_all_hysteresis_metrics harpCalc zueccoCalc lloydCalc df).lloyd_metrics = [] ∧
        (calculate_all_hysteresis_metrics harpCalc zueccoCalc lloydCalc df).classifications = [] ∧
        (calculate_all_hysteresis_metrics harpCalc zueccoCalc lloydCalc df).processed_data = [] ∧
        (calculate_all_hysteresis_metrics harpCalc zueccoCalc lloydCalc df).error ≠ none)) := by
  refine ⟨fun h => ?_, fun e h3 herr => ?_, ?_⟩
  · unfold calculate_all_hysteresis_metrics
    rw [if_pos h]
  · unfold calculate_all_hysteresis_metrics
    rw [if_neg (not_lt.mpr h3), herr]
  · unfold calculate_all_hysteresis_metrics
    by_cases h : df.length < 3
    · rw [if_pos h]
      exact Or.inr ⟨rfl, rfl, rfl, rfl, rfl, by simp [insufficientOutcome]⟩
    · rw [if_neg h]
      cases hr : runEngines harpCalc zueccoCalc lloydCalc df with
      | error e => exact Or.inr ⟨rfl, rfl, rfl, rfl, rfl, by simp [failureOutcome]⟩
      | ok v =>
        obtain ⟨⟨hm, hd⟩, ⟨zm, zd⟩, ⟨lm, ld⟩⟩ := v
        exact Or.inl rfl

/-- C8 witness: with three rows and a first engine that fails with boom,
the result is the caught-failure marker; with an empty frame the result
is the insufficient-data marker. -/
theorem calculate_all_hysteresis_metrics_error_handling_witness :
    calculate_all_hysteresis_metrics
      (fun _ : List Unit => (Except.error "boom" : Except String (List (String × Option ℚ) × Unit)))
      (fun _ => Except.error "boom") (fun _ => Except.error "boom") [(), (), ()] =
      failureOutcome "boom" ∧
    calculate_all_hysteresis_metrics
      (fun _ : List Unit => (Except.error "boom" : Except String (List (String × Option ℚ) × Unit)))
      (fun _ => Except.error "boom") (fun _ => Except.error "boom") [] =
      insufficientOutcome := by
  constructor
  · exact (calculate_all_hysteresis_metrics_error_handling _ _ _ _).2.1 "boom"
      (by simp) rfl
  · exact (calculate_all_hysteresis_metrics_error_handling _ _ _ _).1 (by simp)

end HyGCS
